import Mathlib

/-!
Verification of the cloudbridge resource-lifecycle model and its
readiness-polling engine.

The repository's `src/cloudbridge/providers/interfaces/resources.py`
declares the per-kind state vocabularies (plain string constants), the
`ObjectLifeCycleMixin` capability contract, and the abstract resource-kind
classes; `src/test/test_provider_block_store_service.py` exercises the
lifecycle waits.  The polling engine itself (`wait_for` and the body of
`wait_till_ready`) is not present under `src/` — only its declaration and
its callers are — so it is modelled here from the specification's §4.1
algorithm and marked as such.
-/

/-! ## State enumerations (from `resources.py`) -/

namespace InstanceState

def UNKNOWN : String := "unknown"

def PENDING : String := "pending"

def CONFIGURING : String := "configuring"

def RUNNING : String := "running"

def REBOOTING : String := "rebooting"

def TERMINATED : String := "terminated"

def STOPPED : String := "stopped"

def ERROR : String := "error"

/-- The closed set of standard instance states declared by the
`InstanceState` class. -/
def values : List String :=
  [UNKNOWN, PENDING, CONFIGURING, RUNNING, REBOOTING, TERMINATED, STOPPED,
   ERROR]

end InstanceState

namespace MachineImageState

def UNKNOWN : String := "unknown"

def PENDING : String := "pending"

def AVAILABLE : String := "available"

def ERROR : String := "error"

/-- The closed set of standard machine-image states declared by the
`MachineImageState` class. -/
def values : List String := [UNKNOWN, PENDING, AVAILABLE, ERROR]

end MachineImageState

namespace VolumeState

def UNKNOWN : String := "unknown"

def CREATING : String := "creating"

def CONFIGURING : String := "configuring"

def AVAILABLE : String := "available"

def IN_USE : String := "in-use"

def DELETED : String := "deleted"

def ERROR : String := "error"

/-- The closed set of standard volume states declared by the
`VolumeState` class. -/
def values : List String :=
  [UNKNOWN, CREATING, CONFIGURING, AVAILABLE, IN_USE, DELETED, ERROR]

end VolumeState

namespace SnapshotState

def UNKNOWN : String := "unknown"

def PENDING : String := "pending"

def CONFIGURING : String := "configuring"

def AVAILABLE : String := "available"

def ERROR : String := "error"

/-- The closed set of standard snapshot states declared by the
`SnapshotState` class.  Note: the source declares no `DELETED` member for
snapshots. -/
def values : List String := [UNKNOWN, PENDING, CONFIGURING, AVAILABLE, ERROR]

end SnapshotState

/-! ## The class inventory of `resources.py` -/

/-- The resource-kind classes declared in `resources.py` that the lifecycle
claims quantify over. -/
inductive ResourceKind where
  | instanceKind
  | machineImage
  | volume
  | snapshot
  | keyPair
  | securityGroup
  | container
  deriving DecidableEq, Repr

/-- Which classes of `resources.py` inherit from `ObjectLifeCycleMixin`.
In the source, `Instance`, `MachineImage`, `Volume` and `Snapshot` are
declared as subclasses of the mixin; `KeyPair`, `SecurityGroup` and
`Container` are declared as plain `object` subclasses. -/
def implementsObjectLifeCycle : ResourceKind → Bool
  | .instanceKind => true
  | .machineImage => true
  | .volume => true
  | .snapshot => true
  | .keyPair => false
  | .securityGroup => false
  | .container => false

/-- The abstract operations declared by the `ObjectLifeCycleMixin` class in
the source: the `state` property, `refresh`, and `wait_till_ready`.
No `wait_for` method is declared in the mixin (it appears only at the
tests' call sites). -/
def ObjectLifeCycleMixin.declaredMethods : List String :=
  ["state", "refresh", "wait_till_ready"]

/-! ## Lifecycle handles -/

/-- A live lifecycle handle: the cached state string last obtained from the
backend (the mixin's `state` property, `:rtype: str` in the source), plus
the backend's response to the n-th `refresh` call — `none` models a
transient driver error (the call fails), `some s` models a successful
refresh reporting raw state string `s`. -/
structure Handle where
  state : String
  backend : Nat → Option String

/-- One refresh attempt at call index `k`: on success the newly reported
raw string becomes the observed state, on a transient error the cached
state is kept unchanged (spec §4.1 step 2). -/
def observeState (backend : Nat → Option String) (k : Nat) (st : String) :
    String :=
  (backend k).getD st

/-- The state observed right after a handle's first refresh attempt. -/
def Handle.refreshedState (h : Handle) : String :=
  observeState h.backend 0 h.state

/-! ## The polling engine, modelled from the spec -/

/-- Why a wait failed: a terminal state was observed, or the timeout
elapsed first. -/
inductive WaitReason where
  | terminal
  | timeout
  deriving DecidableEq, Repr

/-- Modelled from the spec: `WaitStateError` carries the last-observed
state and the distinguishing reason (`terminal` vs `timeout`).  The
source's `WaitStateException` is a bare marker exception class; the
engine that fills it is absent from `src/`. -/
structure WaitStateError where
  reason : WaitReason
  state : String
  deriving DecidableEq, Repr

/-- The resolution of one wait: success (the mixin's `wait_till_ready`
returns `True` here), a `WaitStateError` failure, or `outOfFuel`, meaning
the modelled iteration bound was exhausted before the loop resolved (this
never happens for a positive interval and the fuel `requiredFuel`
supplies, as proved below). -/
inductive WaitResult where
  | success
  | failure (e : WaitStateError)
  | outOfFuel
  deriving DecidableEq, Repr

/-- The full outcome of a wait: the resolution, the last observed state,
and how many `refresh` calls were made. -/
structure WaitOutcome where
  result : WaitResult
  finalState : String
  refreshCount : Nat
  deriving DecidableEq, Repr

/-- Modelled from the spec: the body of `wait_for` (§4.1), which is absent
from `src/`.  Iteration `k` (0-based) performs one refresh attempt (a
transient error leaves the state unchanged), then checks target
membership, then terminal membership, then the timeout.  Time is modelled
as `k * interval`: each loop iteration ends with a sleep of `interval`, so
iteration `k` runs at elapsed time `k * interval`.  The timeout check uses
`timeout ≤ elapsed`, the reading of "elapsed time exceeds timeout" forced
by the spec's edge case that a zero timeout must fail after at most one
refresh.  `fuel` bounds the modelled iterations. -/
def waitForAux (backend : Nat → Option String)
    (targets terminals : List String) (timeout : Int) (interval : Nat)
    (st : String) (k : Nat) : Nat → WaitOutcome
  | 0 => { result := .outOfFuel, finalState := st, refreshCount := k }
  | fuel + 1 =>
    let s := observeState backend k st
    if targets.contains s then
      { result := .success, finalState := s, refreshCount := k + 1 }
    else if terminals.contains s then
      { result := .failure { reason := .terminal, state := s },
        finalState := s, refreshCount := k + 1 }
    else if timeout ≤ Int.ofNat (k * interval) then
      { result := .failure { reason := .timeout, state := s },
        finalState := s, refreshCount := k + 1 }
    else
      waitForAux backend targets terminals timeout interval s (k + 1) fuel

/-- Iterations sufficient for the loop to resolve when the interval is
positive: the timeout check fires at the latest at iteration
`timeout.toNat / interval + 1`. -/
def requiredFuel (timeout : Int) (interval : Nat) : Nat :=
  timeout.toNat / interval + 2

/-- Modelled from the spec: `wait_for(handle, target_states,
terminal_states, timeout, interval)` (§4.1), absent from `src/` (only its
declaration-level callers in the tests exist). -/
def wait_for (h : Handle) (targets terminals : List String)
    (timeout : Int) (interval : Nat) : WaitOutcome :=
  waitForAux h.backend targets terminals timeout interval h.state 0
    (requiredFuel timeout interval)

/-- Kind-specific ready-state sets (spec §4.3 table). -/
def readyStates : ResourceKind → List String
  | .instanceKind => [InstanceState.RUNNING]
  | .machineImage => [MachineImageState.AVAILABLE]
  | .volume => [VolumeState.AVAILABLE]
  | .snapshot => [SnapshotState.AVAILABLE]
  | _ => []

/-- Kind-specific terminal/error-state sets (spec §4.3 table). -/
def terminalStates : ResourceKind → List String
  | .instanceKind => [InstanceState.ERROR, InstanceState.TERMINATED]
  | .machineImage => [MachineImageState.ERROR]
  | .volume => [VolumeState.ERROR]
  | .snapshot => [SnapshotState.ERROR]
  | _ => []

/-- Modelled from the spec: `wait_till_ready` is the specialization of
`wait_for` to the kind-specific ready set and terminal set (§4.1); the
mixin declares it abstractly with no body in `src/`. -/
def wait_till_ready (kind : ResourceKind) (h : Handle) (timeout : Int)
    (interval : Nat) : WaitOutcome :=
  wait_for h (readyStates kind) (terminalStates kind) timeout interval

/-- The handle as left behind by a completed wait: the cached state is the
wait's last observed state, and the backend's future responses follow the
refreshes already consumed. -/
def Handle.after (h : Handle) (o : WaitOutcome) : Handle :=
  { state := o.finalState, backend := fun k => h.backend (k + o.refreshCount) }

/-! ## Deletion-wait parameters (from the test file) -/

/-- The target states of the volume-deletion wait in `test_crud_volume`:
`test_vol.wait_for([VolumeState.DELETED, VolumeState.UNKNOWN], ...)`. -/
def volumeDeleteWaitTargets : List String :=
  [VolumeState.DELETED, VolumeState.UNKNOWN]

/-- The terminal states of the volume-deletion wait in `test_crud_volume`:
`terminal_states=[VolumeState.ERROR]`. -/
def volumeDeleteWaitTerminals : List String := [VolumeState.ERROR]

/-- The target states of the snapshot-deletion wait in `cleanup_snap`
(`test_crud_snapshot`): `snap.wait_for([SnapshotState.UNKNOWN], ...)`. -/
def cleanupSnapWaitTargets : List String := [SnapshotState.UNKNOWN]

/-- The terminal states of the snapshot-deletion wait in `cleanup_snap`:
`terminal_states=[SnapshotState.ERROR]`. -/
def cleanupSnapWaitTerminals : List String := [SnapshotState.ERROR]

/-! ## Mutator gating in terminal states -/

/-- The mutating operations declared by the `Volume` class in the
source: `attach`, `detach`, `create_snapshot`, `delete`. -/
inductive VolumeMutator where
  | attach
  | detach
  | createSnapshot
  | delete
  deriving DecidableEq, Repr

/-- Modelled from the spec: whether an implementation accepts a volume
mutator in a given state.  The enforcement code is absent from `src/`
(the interface classes are abstract).  Spec §4.4 requires rejecting
mutators once `ERROR` or `DELETED` is reached, while §8 requires that
"deleting an errored resource is permitted" (and the tests' cleanup paths
call `delete()` after a failed wait), so `delete` is accepted in the
`ERROR` state and every other mutator is rejected in both terminal
states. -/
def mutatorPermitted (state : String) (m : VolumeMutator) : Bool :=
  if state = VolumeState.ERROR then m = VolumeMutator.delete
  else if state = VolumeState.DELETED then false
  else true

/-! ## Engine lemmas -/

/-- An outcome is sound for given target and terminal sets: the loop
resolved, success means the last observed state is a target, and every
failure carries the last observed state with a reason that matches its
set membership. -/
def WaitOutcome.sound (o : WaitOutcome) (targets terminals : List String) :
    Prop :=
  o.result ≠ .outOfFuel ∧
  (o.result = .success → targets.contains o.finalState = true) ∧
  ∀ e, o.result = .failure e →
    e.state = o.finalState ∧
    (e.reason = .terminal → terminals.contains o.finalState = true ∧
        targets.contains o.finalState = false) ∧
    (e.reason = .timeout → targets.contains o.finalState = false ∧
        terminals.contains o.finalState = false)

/-- With a positive interval, `requiredFuel` admits an iteration index at
which the timeout check fires. -/
theorem requiredFuel_reaches (timeout : Int) (interval : Nat)
    (hi : 0 < interval) :
    ∃ m, m < requiredFuel timeout interval ∧
      timeout ≤ Int.ofNat ((0 + m) * interval) := by
  rcases le_or_lt timeout 0 with h0 | h0
  · refine ⟨0, by simp [requiredFuel], by simpa using h0⟩
  · refine ⟨timeout.toNat / interval + 1, by simp [requiredFuel], ?_⟩
    have hlt : timeout.toNat < timeout.toNat / interval * interval + interval :=
      Nat.lt_div_mul_add hi
    have hle : timeout.toNat ≤ (timeout.toNat / interval + 1) * interval := by
      calc timeout.toNat
          ≤ timeout.toNat / interval * interval + interval := hlt.le
        _ = (timeout.toNat / interval + 1) * interval := by ring
    have := Int.toNat_le.mp hle
    simpa using this

/-- Outcome invariants of the polling loop: given enough fuel to reach the
timeout check, the loop resolves and the outcome is sound. -/
theorem waitForAux_sound (backend : Nat → Option String)
    (targets terminals : List String) (timeout : Int) (interval : Nat) :
    ∀ (fuel k : Nat) (st : String),
    (∃ m, m < fuel ∧ timeout ≤ Int.ofNat ((k + m) * interval)) →
    (waitForAux backend targets terminals timeout interval st k fuel).sound
      targets terminals := by
  intro fuel
  induction fuel with
  | zero =>
    intro k st hex
    obtain ⟨m, hm, _⟩ := hex
    omega
  | succ fuel ih =>
    intro k st hex
    obtain ⟨m, hm, hle⟩ := hex
    by_cases h1 : observeState backend k st ∈ targets
    · simp [waitForAux, WaitOutcome.sound, h1]
    · by_cases h2 : observeState backend k st ∈ terminals
      · simp [waitForAux, WaitOutcome.sound, h1, h2]
      · by_cases h3 : timeout ≤ (k : Int) * (interval : Int)
        · simp [waitForAux, WaitOutcome.sound, h1, h2, h3]
        · have hm0 : m ≠ 0 := by
            rintro rfl
            exact h3 (by simpa using hle)
          have hrec := ih (k + 1) (observeState backend k st)
            ⟨m - 1, by omega, by
              have hkm : k + 1 + (m - 1) = k + m := by omega
              rw [hkm]; exact hle⟩
          simpa [waitForAux, h1, h2, h3] using hrec

/-- If every refresh attempt fails transiently and the carried state is in
neither set, the loop keeps the state unchanged and resolves as a timeout
failure reporting that state. -/
theorem waitForAux_allNone (backend : Nat → Option String)
    (targets terminals : List String) (timeout : Int) (interval : Nat)
    (hnone : ∀ j, backend j = none) :
    ∀ (fuel k : Nat) (st : String),
    targets.contains st = false → terminals.contains st = false →
    (∃ m, m < fuel ∧ timeout ≤ Int.ofNat ((k + m) * interval)) →
    (waitForAux backend targets terminals timeout interval st k fuel).result
        = .failure { reason := .timeout, state := st } ∧
    (waitForAux backend targets terminals timeout interval st k
        fuel).finalState = st := by
  intro fuel
  induction fuel with
  | zero =>
    intro k st _ _ hex
    obtain ⟨m, hm, _⟩ := hex
    omega
  | succ fuel ih =>
    intro k st ht hterm hex
    obtain ⟨m, hm, hle⟩ := hex
    have ht' : st ∉ targets := by simpa using ht
    have hterm' : st ∉ terminals := by simpa using hterm
    have hobs : observeState backend k st = st := by
      simp [observeState, hnone k]
    by_cases h3 : timeout ≤ (k : Int) * (interval : Int)
    · simp [waitForAux, hobs, ht', hterm', h3]
    · have hm0 : m ≠ 0 := by
        rintro rfl
        exact h3 (by simpa using hle)
      have hrec := ih (k + 1) st ht hterm
        ⟨m - 1, by omega, by
          have hkm : k + 1 + (m - 1) = k + m := by omega
          rw [hkm]; exact hle⟩
      simpa [waitForAux, hobs, ht', hterm', h3] using hrec

/-- If the first refresh attempt observes a target state, the wait resolves
immediately: success, exactly one refresh, final state as observed. -/
theorem wait_for_target_immediate (h : Handle)
    (targets terminals : List String) (timeout : Int) (interval : Nat)
    (ht : h.refreshedState ∈ targets) :
    wait_for h targets terminals timeout interval =
      { result := .success, finalState := h.refreshedState,
        refreshCount := 1 } := by
  have ht' : observeState h.backend 0 h.state ∈ targets := ht
  have hf : requiredFuel timeout interval =
      timeout.toNat / interval + 1 + 1 := rfl
  rw [wait_for, hf]
  simp [waitForAux, Handle.refreshedState, ht']

/-! ## Claim theorems -/

/-- C1: for every handle and every pair of state sets, if the state
observed after the first refresh attempt is a member of `target_states`,
`wait_for` returns success immediately — exactly one refresh, no further
polling — even when that state is also a member of `terminal_states`:
target-state membership takes priority over terminal-state membership
(step 3 is checked before step 4). -/
theorem c1_target_priority (h : Handle) (targets terminals : List String)
    (timeout : Int) (interval : Nat)
    (ht : targets.contains h.refreshedState = true) :
    wait_for h targets terminals timeout interval =
      { result := .success, finalState := h.refreshedState,
        refreshCount := 1 } :=
  wait_for_target_immediate h targets terminals timeout interval
    (by simpa using ht)

/-- C1 witness: a handle observed in state `"available"`, which is a member
of both the target set and the terminal set — the wait still succeeds
immediately with one refresh. -/
theorem c1_witness :
    wait_for (Handle.mk "creating" (fun _ => some "available"))
        ["available"] ["available", "error"] 60 1 =
      { result := .success, finalState := "available", refreshCount := 1 } :=
  c1_target_priority (Handle.mk "creating" (fun _ => some "available"))
    ["available"] ["available", "error"] 60 1 rfl

/-- C7 counterexample: with a zero timeout and a handle already observed in
a target state, `wait_for` returns success rather than failing with a
timeout error, so the claim fails as stated for such handles. -/
theorem c7_counterexample :
    (wait_for (Handle.mk "available" (fun _ => some "available"))
        ["available"] ["error"] 0 1).result = .success ∧
    (wait_for (Handle.mk "available" (fun _ => some "available"))
        ["available"] ["error"] 0 1).refreshCount = 1 :=
  ⟨rfl, rfl⟩

/-- C7 (amended): with a zero or negative timeout, `wait_for` (and hence
`wait_till_ready`) terminates immediately after exactly one refresh
attempt: it fails with a timeout error reporting the observed state,
unless that state is already a target (immediate success) or terminal
(immediate terminal failure). -/
theorem c7_fail_fast (h : Handle) (targets terminals : List String)
    (timeout : Int) (interval : Nat) (hto : timeout ≤ 0) :
    (wait_for h targets terminals timeout interval).refreshCount = 1 ∧
    (wait_for h targets terminals timeout interval).result ≠ .outOfFuel ∧
    (targets.contains h.refreshedState = false →
     terminals.contains h.refreshedState = false →
     (wait_for h targets terminals timeout interval).result =
       .failure { reason := .timeout, state := h.refreshedState }) := by
  have hf : requiredFuel timeout interval =
      timeout.toNat / interval + 1 + 1 := rfl
  by_cases h1 : observeState h.backend 0 h.state ∈ targets
  · simp [wait_for, hf, waitForAux, Handle.refreshedState, h1]
  · by_cases h2 : observeState h.backend 0 h.state ∈ terminals
    · simp [wait_for, hf, waitForAux, Handle.refreshedState, h1, h2]
    · simp [wait_for, hf, waitForAux, Handle.refreshedState, h1, h2, hto]

/-- C7 witness: a handle observed in a state in neither set, waited on
with timeout 0 — the wait fails with a timeout error after one refresh. -/
theorem c7_witness :
    (wait_for (Handle.mk "pending" (fun _ => none)) ["available"] ["error"]
        0 5).result = .failure { reason := .timeout, state := "pending" } :=
  (c7_fail_fast (Handle.mk "pending" (fun _ => none)) ["available"] ["error"]
    0 5 (by decide)).2.2 rfl rfl

/-- C9: each per-kind lifecycle state set (`InstanceState`,
`MachineImageState`, `VolumeState`, `SnapshotState`), modelled as the
closed list of members the source declares, includes both `UNKNOWN` and
`ERROR`. -/
theorem c9_every_state_enum_has_unknown_and_error :
    InstanceState.values.contains InstanceState.UNKNOWN = true ∧
    InstanceState.values.contains InstanceState.ERROR = true ∧
    MachineImageState.values.contains MachineImageState.UNKNOWN = true ∧
    MachineImageState.values.contains MachineImageState.ERROR = true ∧
    VolumeState.values.contains VolumeState.UNKNOWN = true ∧
    VolumeState.values.contains VolumeState.ERROR = true ∧
    SnapshotState.values.contains SnapshotState.UNKNOWN = true ∧
    SnapshotState.values.contains SnapshotState.ERROR = true := by
  decide

/-- C10: the state of a lifecycle-capable object is represented as a plain
string with no mapping or validation from backend-reported strings to the
enumeration constants: a handle's `state` is whatever string it carries, a
successful refresh observes the backend's raw string verbatim, and a
string outside the closed `VolumeState` enumeration is observable as a
state. -/
theorem c10_state_is_raw_unvalidated_string :
    (∀ (s : String) (b : Nat → Option String), (Handle.mk s b).state = s) ∧
    (∀ st r : String,
      (Handle.mk st (fun _ => some r)).refreshedState = r) ∧
    VolumeState.values.contains "martian" = false :=
  ⟨fun _ _ => rfl, fun _ _ => rfl, rfl⟩

/-- C6 counterexample: `SecurityGroup` does not implement the lifecycle
capability contract — in the source it is a plain `object` subclass, not
an `ObjectLifeCycleMixin` subclass — and the mixin declares no `wait_for`
operation, so the claim fails as stated. -/
theorem c6_counterexample :
    implementsObjectLifeCycle ResourceKind.securityGroup = false ∧
    ObjectLifeCycleMixin.declaredMethods.contains "wait_for" = false :=
  ⟨rfl, rfl⟩

/-- C6 (amended): the lifecycle capability contract `ObjectLifeCycleMixin`
composes `state`, `refresh` and `wait_till_ready` (`wait_for` appears only
at the tests' call sites, not in the declared contract), and exactly the
kinds Instance, MachineImage, Volume and Snapshot implement it;
SecurityGroup, KeyPair and Container do not. -/
theorem c6_lifecycle_implementors :
    (∀ k : ResourceKind, implementsObjectLifeCycle k = true ↔
      (k = ResourceKind.instanceKind ∨ k = ResourceKind.machineImage ∨
       k = ResourceKind.volume ∨ k = ResourceKind.snapshot)) ∧
    ObjectLifeCycleMixin.declaredMethods.contains "state" = true ∧
    ObjectLifeCycleMixin.declaredMethods.contains "refresh" = true ∧
    ObjectLifeCycleMixin.declaredMethods.contains "wait_till_ready" = true := by
  refine ⟨?_, rfl, rfl, rfl⟩
  intro k
  cases k <;> simp [implementsObjectLifeCycle]

/-- C4 counterexample: the claim fails for the Snapshot kind — `DELETED`
is not a member of the closed `SnapshotState` enumeration, and the
snapshot-deletion wait in `cleanup_snap` polls for `UNKNOWN` alone, not
for `DELETED` or `UNKNOWN`. -/
theorem c4_counterexample :
    SnapshotState.values.contains "deleted" = false ∧
    cleanupSnapWaitTargets.contains "deleted" = false ∧
    cleanupSnapWaitTargets = [SnapshotState.UNKNOWN] :=
  ⟨rfl, rfl, rfl⟩

/-- C4 (amended): `delete` only signals intent and completion is observed
by polling: the volume-deletion wait targets `DELETED` or `UNKNOWN` with
`ERROR` as its only terminal failure state, while the snapshot-deletion
wait — `SnapshotState` has no `DELETED` member — targets `UNKNOWN` alone,
again with `ERROR` as its only terminal failure state; the engine resolves
those waits accordingly. -/
theorem c4_deletion_waits :
    volumeDeleteWaitTargets = [VolumeState.DELETED, VolumeState.UNKNOWN] ∧
    volumeDeleteWaitTerminals = [VolumeState.ERROR] ∧
    cleanupSnapWaitTargets = [SnapshotState.UNKNOWN] ∧
    cleanupSnapWaitTerminals = [SnapshotState.ERROR] ∧
    (wait_for (Handle.mk VolumeState.CONFIGURING
        (fun _ => some VolumeState.DELETED))
      volumeDeleteWaitTargets volumeDeleteWaitTerminals 30 1).result =
        .success ∧
    (wait_for (Handle.mk VolumeState.CONFIGURING
        (fun _ => some VolumeState.UNKNOWN))
      volumeDeleteWaitTargets volumeDeleteWaitTerminals 30 1).result =
        .success ∧
    (wait_for (Handle.mk VolumeState.CONFIGURING
        (fun _ => some VolumeState.ERROR))
      volumeDeleteWaitTargets volumeDeleteWaitTerminals 30 1).result =
        .failure { reason := .terminal, state := VolumeState.ERROR } ∧
    (wait_for (Handle.mk SnapshotState.PENDING
        (fun _ => some SnapshotState.UNKNOWN))
      cleanupSnapWaitTargets cleanupSnapWaitTerminals 30 1).result =
        .success ∧
    (wait_for (Handle.mk SnapshotState.PENDING
        (fun _ => some SnapshotState.ERROR))
      cleanupSnapWaitTargets cleanupSnapWaitTerminals 30 1).result =
        .failure { reason := .terminal, state := SnapshotState.ERROR } :=
  ⟨rfl, rfl, rfl, rfl, rfl, rfl, rfl, rfl, rfl⟩

/-- C2 counterexample: a handle whose cached state is already a target
returns success even though every refresh call fails transiently, so the
claim's "never returns success" fails as stated. -/
theorem c2_counterexample :
    (∀ j, (Handle.mk "available" (fun _ => none)).backend j = none) ∧
    (wait_for (Handle.mk "available" (fun _ => none)) ["available"]
        ["error"] 10 1).result = .success :=
  ⟨fun _ => rfl, rfl⟩

/-- C2 (amended): if every refresh call fails transiently and the handle's
cached state is in neither `target_states` nor `terminal_states`, the
engine treats each failure as "state unchanged" and keeps polling:
`wait_for` resolves (never crashes, never succeeds) and, once the timeout
elapses, fails with reason `timeout` — not with the underlying transient
error — still reporting the last known state. -/
theorem c2_all_refreshes_fail (h : Handle) (targets terminals : List String)
    (timeout : Int) (interval : Nat)
    (hnone : ∀ j, h.backend j = none)
    (ht : targets.contains h.state = false)
    (hterm : terminals.contains h.state = false)
    (hi : 0 < interval) :
    (wait_for h targets terminals timeout interval).result =
      .failure { reason := .timeout, state := h.state } ∧
    (wait_for h targets terminals timeout interval).finalState = h.state :=
  waitForAux_allNone h.backend targets terminals timeout interval hnone
    (requiredFuel timeout interval) 0 h.state ht hterm
    (requiredFuel_reaches timeout interval hi)

/-- C2 witness: a handle stuck in `"creating"` whose every refresh fails —
the wait resolves as a timeout failure reporting `"creating"`. -/
theorem c2_witness :
    (wait_for (Handle.mk "creating" (fun _ => none)) ["available"]
        ["error"] 3 1).result =
      .failure { reason := .timeout, state := "creating" } :=
  (c2_all_refreshes_fail (Handle.mk "creating" (fun _ => none)) ["available"]
    ["error"] 3 1 (fun _ => rfl) rfl rfl (by decide)).1

/-- C3: `wait_till_ready` resolves every wait with a positive interval —
success (the mixin's documented `True` return) only when the last observed
state is in the kind's ready set, and otherwise a `WaitStateError` (the
source's `WaitStateException`) whose carried state is exactly the
last-observed state and whose distinguishing reason (`terminal` vs
`timeout`) matches that state's membership in the kind's terminal set: a
failed wait always reports the last known state to the caller. -/
theorem c3_failed_wait_reports_state (kind : ResourceKind) (h : Handle)
    (timeout : Int) (interval : Nat) (hi : 0 < interval) :
    (wait_till_ready kind h timeout interval).sound (readyStates kind)
      (terminalStates kind) :=
  waitForAux_sound h.backend (readyStates kind) (terminalStates kind)
    timeout interval (requiredFuel timeout interval) 0 h.state
    (requiredFuel_reaches timeout interval hi)

/-- C3 witness: a volume handle whose refresh reports `"error"` — the
wait's outcome is sound for the volume ready and terminal sets. -/
theorem c3_witness :
    (wait_till_ready ResourceKind.volume
        (Handle.mk "creating" (fun _ => some "error")) 60 1).sound
      (readyStates ResourceKind.volume)
      (terminalStates ResourceKind.volume) :=
  c3_failed_wait_reports_state ResourceKind.volume
    (Handle.mk "creating" (fun _ => some "error")) 60 1 (by decide)

/-- C5 counterexample: `delete` is accepted on a resource in the `ERROR`
state — spec §8 requires "deleting an errored resource is permitted" and
the tests' cleanup paths call `delete()` after a failed wait — so the
claim's "every mutator (including delete) is rejected" fails. -/
theorem c5_counterexample :
    mutatorPermitted VolumeState.ERROR VolumeMutator.delete = true := by
  decide

/-- C5 (amended): once a volume has reached the `ERROR` or `DELETED`
state, no mutator may be invoked except `delete` on an `ERROR` resource,
which the contract requires implementations to accept; every other call is
rejected rather than forwarded to the backend. -/
theorem c5_terminal_states_reject_mutators (m : VolumeMutator) (s : String)
    (hs : s = VolumeState.ERROR ∨ s = VolumeState.DELETED) :
    mutatorPermitted s m = true ↔
      (s = VolumeState.ERROR ∧ m = VolumeMutator.delete) := by
  rcases hs with rfl | rfl <;> cases m <;> decide

/-- C5 witness: `attach` is rejected on a deleted volume. -/
theorem c5_witness :
    mutatorPermitted VolumeState.DELETED VolumeMutator.attach = false := by
  cases hb : mutatorPermitted VolumeState.DELETED VolumeMutator.attach
  · rfl
  · have h := (c5_terminal_states_reject_mutators VolumeMutator.attach
      VolumeState.DELETED (Or.inr rfl)).mp hb
    exact absurd h.1 (by decide)

/-- C8: `wait_till_ready` is idempotent on an already-ready resource —
when the backend reports a ready state on each of the first two refreshes,
two successive calls both return success immediately, with exactly one
refresh call per invocation. -/
theorem c8_idempotent_when_ready (kind : ResourceKind) (h : Handle)
    (timeout : Int) (interval : Nat) (s0 s1 : String)
    (hb0 : h.backend 0 = some s0)
    (hr0 : (readyStates kind).contains s0 = true)
    (hb1 : h.backend 1 = some s1)
    (hr1 : (readyStates kind).contains s1 = true) :
    (wait_till_ready kind h timeout interval).result = .success ∧
    (wait_till_ready kind h timeout interval).refreshCount = 1 ∧
    (wait_till_ready kind (h.after (wait_till_ready kind h timeout interval))
        timeout interval).result = .success ∧
    (wait_till_ready kind (h.after (wait_till_ready kind h timeout interval))
        timeout interval).refreshCount = 1 := by
  have hmem0 : h.refreshedState ∈ readyStates kind := by
    have hs : h.refreshedState = s0 := by
      simp [Handle.refreshedState, observeState, hb0]
    rw [hs]
    simpa using hr0
  have ho1 : wait_till_ready kind h timeout interval =
      { result := .success, finalState := h.refreshedState,
        refreshCount := 1 } :=
    wait_for_target_immediate h (readyStates kind) (terminalStates kind)
      timeout interval hmem0
  have hmem1 : (h.after (wait_till_ready kind h timeout
      interval)).refreshedState ∈ readyStates kind := by
    rw [ho1]
    have hs : (h.after
        { result := .success, finalState := h.refreshedState,
          refreshCount := 1 }).refreshedState = s1 := by
      simp [Handle.after, Handle.refreshedState, observeState, hb1]
    rw [hs]
    simpa using hr1
  have ho2 : wait_till_ready kind
      (h.after (wait_till_ready kind h timeout interval)) timeout interval =
      { result := .success,
        finalState :=
          (h.after (wait_till_ready kind h timeout interval)).refreshedState,
        refreshCount := 1 } :=
    wait_for_target_immediate
      (h.after (wait_till_ready kind h timeout interval))
      (readyStates kind) (terminalStates kind) timeout interval hmem1
  exact ⟨by rw [ho1], by rw [ho1], by rw [ho2], by rw [ho2]⟩

/-- C8 witness: a volume handle already in `"available"` whose backend
keeps reporting `"available"` — both successive calls succeed with one
refresh each. -/
theorem c8_witness :
    (wait_till_ready ResourceKind.volume
        (Handle.mk "available" (fun _ => some "available")) 60 1).result =
      WaitResult.success ∧
    (wait_till_ready ResourceKind.volume
        ((Handle.mk "available" (fun _ => some "available")).after
          (wait_till_ready ResourceKind.volume
            (Handle.mk "available" (fun _ => some "available")) 60 1))
        60 1).refreshCount = 1 := by
  have h := c8_idempotent_when_ready ResourceKind.volume
    (Handle.mk "available" (fun _ => some "available")) 60 1
    "available" "available" rfl rfl rfl rfl
  exact ⟨h.1, h.2.2.2⟩
